import Mathlib

/-!
Shallow embedding of the rep-counting core of the Take3 physiotherapy engine.

Sources embedded here:
* src/rep_counter.py   (RepCounter: process_rep, _determine_target_state,
  _handle_state_transition, _provide_form_feedback)
* src/angle_calculator.py (AngleCalculator.get_smoothed_angle)
* src/pose_processor.py (PoseProcessor.extract_arm_angle, get_both_arm_angles)
* src/calibration.py   (CalibrationManager._finalize_calibration,
  _calculate_robust_average)
* src/models.py, src/constants.py (data model and constants)

Modelling conventions: Python floats are modelled as exact rationals (ℚ);
Python int() is truncation toward zero (pyInt); the two sides (RIGHT/LEFT)
hold disjoint per-arm state in the source (separate dict entries keyed by
arm), so the per-arm state is modelled as a single structure and theorems
about "every side" are stated over that per-arm state.  trigonometric angle
computation (AngleCalculator.calculate_angle, atan2-based) is abstracted as
a function parameter where needed, since no claim constrains its value.
-/

/-- Python int() on a rational: truncation toward zero. -/
def pyInt (x : ℚ) : ℤ := if 0 ≤ x then ⌊x⌋ else ⌈x⌉

/-- Rounding of a rational to the nearest integer, halves up.  (Python's
round() sends halves to even; both conventions agree away from halves and
in particular on every input used below.) -/
def ratRound (x : ℚ) : ℤ := ⌊x + 1/2⌋

/-- collections.deque(maxlen) append: keep the most recent maxlen entries. -/
def dequeAppend (maxlen : ℕ) (l : List ℚ) (x : ℚ) : List ℚ :=
  let l' := l ++ [x]
  if maxlen < l'.length then l'.drop (l'.length - maxlen) else l'

/-- Python negative indexing l[-k] (defined for 1 ≤ k ≤ l.length). -/
def negIdx (l : List ℚ) (k : ℕ) : ℚ := l.getD (l.length - k) 0

/-- constants.ArmStage. -/
inductive ArmStage where
  | UP
  | DOWN
  | LOST
  | MOVING_UP
  | MOVING_DOWN
deriving DecidableEq

/-- The four threshold fields of models.CalibrationData plus the message and
active flag (the sample buffers are passed separately where needed). -/
structure CalibrationData where
  contracted_threshold : ℤ
  extended_threshold : ℤ
  safe_angle_min : ℤ
  safe_angle_max : ℤ
  message : String
  active : Bool
deriving DecidableEq

/-- Default thresholds from models.CalibrationData / constants.py. -/
def default_calibration : CalibrationData :=
  { contracted_threshold := 50, extended_threshold := 160,
    safe_angle_min := 30, safe_angle_max := 175, message := "", active := true }

/-- models.ArmMetrics restricted to the fields RepCounter reads or writes
(accuracy, feedback_color and stage_start_time are never touched by the
embedded functions and are omitted). -/
structure ArmMetrics where
  rep_count : ℕ
  stage : ArmStage
  angle : ℚ
  rep_time : ℚ
  min_rep_time : ℚ
  curr_rep_time : ℚ
  feedback : String
  last_down_time : ℚ
deriving DecidableEq

/-- The per-arm mutable state of rep_counter.RepCounter (one side's entries
of angle_history, pending_state, pending_state_start, rep_start_time). -/
structure RepArmState where
  angle_history : List ℚ
  pending_state : Option ArmStage
  pending_state_start : ℚ
  rep_start_time : ℚ
deriving DecidableEq

/-- RepCounter.hysteresis_margin (degrees). -/
def hysteresis_margin : ℚ := 5

/-- RepCounter.state_hold_time (0.15 s). -/
def state_hold_time : ℚ := 3/20

/-- RepCounter min_rep_duration constructor default (0.6 s, constants.MIN_REP_DURATION). -/
def min_rep_duration : ℚ := 3/5

/-- Initial per-arm RepCounter state (empty deque, no pending state, timers 0). -/
def initial_rep_arm_state : RepArmState :=
  { angle_history := [], pending_state := none, pending_state_start := 0, rep_start_time := 0 }

/-- Initial ArmMetrics: stage DOWN, counters 0; last_down_time is set to the
wall-clock creation time, modelled by the parameter t0. -/
def initial_arm_metrics (t0 : ℚ) : ArmMetrics :=
  { rep_count := 0, stage := ArmStage.DOWN, angle := 0, rep_time := 0,
    min_rep_time := 0, curr_rep_time := 0, feedback := "", last_down_time := t0 }

/-- rep_counter.RepCounter._determine_target_state. -/
def determine_target_state (cal : CalibrationData) (angle : ℚ) (current : ArmStage) : ArmStage :=
  if angle ≤ (cal.contracted_threshold : ℚ) - hysteresis_margin then ArmStage.UP
  else if angle ≥ (cal.extended_threshold : ℚ) + hysteresis_margin then ArmStage.DOWN
  else match current with
    | ArmStage.UP =>
        if angle < (cal.contracted_threshold : ℚ) + hysteresis_margin then ArmStage.UP
        else ArmStage.MOVING_DOWN
    | ArmStage.DOWN =>
        if angle > (cal.extended_threshold : ℚ) - hysteresis_margin then ArmStage.DOWN
        else ArmStage.MOVING_UP
    | ArmStage.MOVING_UP =>
        if angle ≤ (cal.contracted_threshold : ℚ) - hysteresis_margin then ArmStage.UP
        else if angle ≥ (cal.extended_threshold : ℚ) + hysteresis_margin then ArmStage.DOWN
        else ArmStage.MOVING_UP
    | ArmStage.MOVING_DOWN =>
        if angle ≥ (cal.extended_threshold : ℚ) + hysteresis_margin then ArmStage.DOWN
        else if angle ≤ (cal.contracted_threshold : ℚ) - hysteresis_margin then ArmStage.UP
        else ArmStage.MOVING_DOWN
    | ArmStage.LOST => ArmStage.LOST

/-- rep_counter.RepCounter._handle_state_transition (per-arm state and
metrics threaded explicitly; returns the updated pair). -/
def handle_state_transition (s : RepArmState) (prev_stage new_stage : ArmStage)
    (m : ArmMetrics) (current_time : ℚ) : RepArmState × ArmMetrics :=
  let m1 := { m with stage := new_stage }
  if prev_stage = ArmStage.UP then
    if new_stage = ArmStage.MOVING_DOWN ∨ new_stage = ArmStage.DOWN then
      let rep_time := current_time - m1.last_down_time
      if rep_time ≥ min_rep_duration then
        (s, { m1 with
              rep_count := m1.rep_count + 1,
              rep_time := rep_time,
              min_rep_time :=
                if m1.min_rep_time = 0 then rep_time else min rep_time m1.min_rep_time,
              last_down_time := current_time,
              curr_rep_time := 0 })
      else (s, m1)
    else (s, m1)
  else if new_stage = ArmStage.DOWN then
    ({ s with rep_start_time := current_time }, m1)
  else if new_stage = ArmStage.UP then
    (if s.rep_start_time = 0 then { s with rep_start_time := current_time } else s, m1)
  else (s, m1)

/-- rep_counter.RepCounter._provide_form_feedback; the side's
SessionHistory feedback counter is threaded as fc. -/
def provide_form_feedback (cal : CalibrationData) (angle : ℚ) (m : ArmMetrics)
    (fc : ℕ) : ArmMetrics × ℕ :=
  if angle < (cal.safe_angle_min : ℚ) then
    ({ m with feedback := "Over Curling" }, fc + 1)
  else if angle > (cal.safe_angle_max : ℚ) then
    ({ m with feedback := "Over Extending" }, fc + 1)
  else if (cal.contracted_threshold : ℚ) < angle ∧ angle < (cal.extended_threshold : ℚ) then
    if m.stage = ArmStage.UP ∨ m.stage = ArmStage.MOVING_UP then
      if angle > (cal.contracted_threshold : ℚ) + 10 then
        ({ m with feedback := "Curl Higher" }, fc + 1)
      else (m, fc)
    else if m.stage = ArmStage.DOWN ∨ m.stage = ArmStage.MOVING_DOWN then
      if angle < (cal.extended_threshold : ℚ) - 10 then
        ({ m with feedback := "Extend Fully" }, fc + 1)
      else (m, fc)
    else (m, fc)
  else (m, fc)

/-- rep_counter.RepCounter.process_rep for one side.  The acceleration
computed in the source (lines 56-60) is dead code — it is never read after
being assigned — and is therefore not modelled. -/
def process_rep (cal : CalibrationData) (s : RepArmState) (m : ArmMetrics) (fc : ℕ)
    (angle current_time : ℚ) : RepArmState × ArmMetrics × ℕ :=
  let m1 := { m with angle := angle }
  let s1 := { s with angle_history := dequeAppend 8 s.angle_history angle }
  if s1.angle_history.length < 4 then (s1, m1, fc)
  else
    let velocity := |negIdx s1.angle_history 1 - negIdx s1.angle_history 4| / 3
    let prev_stage := m1.stage
    let m2 := { m1 with feedback := "" }
    let target := determine_target_state cal angle prev_stage
    let step1 :=
      if target ≠ prev_stage then
        if s1.pending_state = some target then
          if state_hold_time ≤ current_time - s1.pending_state_start ∧ velocity < 15 then
            handle_state_transition s1 prev_stage target m2 current_time
          else (s1, m2)
        else ({ s1 with pending_state := some target, pending_state_start := current_time }, m2)
      else ({ s1 with pending_state := none }, m2)
    let s2 := step1.1
    let m3 := step1.2
    let m4 := if m3.stage = ArmStage.UP then
        { m3 with curr_rep_time := current_time - s2.rep_start_time } else m3
    if velocity < 20 then
      let fb := provide_form_feedback cal angle m4 fc
      (s2, fb.1, fb.2)
    else (s2, m4, fc)

/-- One (RepArmState, ArmMetrics, feedback count) step of process_rep on an
(angle, timestamp) pair. -/
def rep_step (cal : CalibrationData) (st : RepArmState × ArmMetrics × ℕ)
    (p : ℚ × ℚ) : RepArmState × ArmMetrics × ℕ :=
  process_rep cal st.1 st.2.1 st.2.2 p.1 p.2

/-- Folding process_rep over a list of (angle, timestamp) pairs. -/
def process_trace (cal : CalibrationData) (st : RepArmState × ArmMetrics × ℕ)
    (l : List (ℚ × ℚ)) : RepArmState × ArmMetrics × ℕ :=
  l.foldl (rep_step cal) st

/-- The velocity process_rep would compute for one more sample a appended to
history h: |h'[-1] - h'[-4]| / 3 on the updated window. -/
def velocity_after (h : List ℚ) (a : ℚ) : ℚ :=
  let h' := dequeAppend 8 h a
  |negIdx h' 1 - negIdx h' 4| / 3

/-- Insertion into a sorted list (ascending), for sorting rationals. -/
def insortQ (x : ℚ) : List ℚ → List ℚ
  | [] => [x]
  | y :: ys => if x ≤ y then x :: y :: ys else y :: insortQ x ys

/-- Ascending insertion sort on rationals. -/
def sortQ (l : List ℚ) : List ℚ := l.foldr insortQ []

/-- numpy.median: middle element of the sorted list, or the mean of the two
middle elements for even length (0 for the empty list, which never occurs
at the call sites). -/
def medianQ (l : List ℚ) : ℚ :=
  let s := sortQ l
  let n := s.length
  if n = 0 then 0
  else if n % 2 = 1 then s.getD (n / 2) 0
  else (s.getD (n / 2 - 1) 0 + s.getD (n / 2) 0) / 2

/-- The per-arm state of angle_calculator.AngleCalculator: one side's
smoothing buffer (deque maxlen 7) and EMA value (None before first sample). -/
structure AngleCalcState where
  buffer : List ℚ
  ema : Option ℚ
deriving DecidableEq

/-- AngleCalculator.alpha (EMA coefficient, 0.5). -/
def alpha : ℚ := 1/2

/-- angle_calculator.AngleCalculator.get_smoothed_angle for one side:
append to the smoothing window, take the window median, update the EMA
(seeding it with the median on the first sample), return int(ema). -/
def get_smoothed_angle (st : AngleCalcState) (angle : ℚ) : AngleCalcState × ℤ :=
  let buf := dequeAppend 7 st.buffer angle
  let median := medianQ buf
  let e := match st.ema with
    | none => median
    | some e0 => alpha * median + (1 - alpha) * e0
  ({ buffer := buf, ema := some e }, pyInt e)

/-- The smoother exactly as claim C4 words it: identical to the source
except that the returned integer is round(e) instead of int(e). -/
def get_smoothed_angle_claim (st : AngleCalcState) (angle : ℚ) : AngleCalcState × ℤ :=
  let buf := dequeAppend 7 st.buffer angle
  let median := medianQ buf
  let e := match st.ema with
    | none => median
    | some e0 => alpha * median + (1 - alpha) * e0
  ({ buffer := buf, ema := some e }, ratRound e)

/-- The smoother as the amended claim words it: window capacity 7, window
median m, EMA update e ← (m + e0)/2 (the α = 0.5 convex combination),
seeded with m on the first sample, returning int(e) truncated toward zero. -/
def get_smoothed_angle_amended (st : AngleCalcState) (angle : ℚ) : AngleCalcState × ℤ :=
  let buf := dequeAppend 7 st.buffer angle
  let m := medianQ buf
  let e := match st.ema with
    | none => m
    | some e0 => (m + e0) / 2
  ({ buffer := buf, ema := some e }, pyInt e)

/-- A pose landmark: normalized coordinates plus a visibility confidence. -/
structure Landmark where
  x : ℚ
  y : ℚ
  visibility : ℚ
deriving DecidableEq

/-- An (A, B, C) landmark index triple of constants.ExerciseConfig, B the vertex. -/
structure LandmarkTriple where
  a : ℕ
  b : ℕ
  c : ℕ
deriving DecidableEq

/-- The two landmark-index triples of constants.ExerciseConfig. -/
structure ExerciseConfig where
  right_landmarks : LandmarkTriple
  left_landmarks : LandmarkTriple
deriving DecidableEq

/-- A default landmark used only to state getD reads; reads at valid
indices never see it. -/
def defaultLandmark : Landmark := { x := 0, y := 0, visibility := 0 }

/-- Any of the triple's indices is outside the landmark list: in the source
the coordinate reads then raise IndexError, caught and turned into None. -/
def landmark_read_fails (lms : List Landmark) (t : LandmarkTriple) : Prop :=
  lms.length ≤ t.a ∨ lms.length ≤ t.b ∨ lms.length ≤ t.c

instance (lms : List Landmark) (t : LandmarkTriple) :
    Decidable (landmark_read_fails lms t) := by
  unfold landmark_read_fails; infer_instance

/-- Any of the triple's landmarks has visibility below 0.6. -/
def low_visibility (lms : List Landmark) (t : LandmarkTriple) : Prop :=
  (lms.getD t.a defaultLandmark).visibility < 3/5 ∨
  (lms.getD t.b defaultLandmark).visibility < 3/5 ∨
  (lms.getD t.c defaultLandmark).visibility < 3/5

instance (lms : List Landmark) (t : LandmarkTriple) :
    Decidable (low_visibility lms t) := by
  unfold low_visibility; infer_instance

/-- pose_processor.PoseProcessor.extract_arm_angle for one side.
calc_angle abstracts AngleCalculator.calculate_angle (atan2-based,
transcendental, unconstrained by the claims).  The try/except around the
landmark reads is modelled by the explicit index-bounds test: an
out-of-range read raises IndexError in the source, which is caught and
returned as None. -/
def extract_arm_angle (calc_angle : (ℚ × ℚ) → (ℚ × ℚ) → (ℚ × ℚ) → ℚ)
    (lms : List Landmark) (t : LandmarkTriple) (st : AngleCalcState) :
    AngleCalcState × Option ℤ :=
  if landmark_read_fails lms t then (st, none)
  else
    let A := lms.getD t.a defaultLandmark
    let B := lms.getD t.b defaultLandmark
    let C := lms.getD t.c defaultLandmark
    if A.visibility < 3/5 ∨ B.visibility < 3/5 ∨ C.visibility < 3/5 then (st, none)
    else
      let raw := calc_angle (A.x, A.y) (B.x, B.y) (C.x, C.y)
      let r := get_smoothed_angle st raw
      (r.1, some r.2)

/-- pose_processor.PoseProcessor.get_both_arm_angles: None for both sides
when the frame has no pose landmarks, otherwise per-side extraction with
that side's smoother state. -/
def get_both_arm_angles (calc_angle : (ℚ × ℚ) → (ℚ × ℚ) → (ℚ × ℚ) → ℚ)
    (cfg : ExerciseConfig) (results : Option (List Landmark))
    (stR stL : AngleCalcState) :
    (AngleCalcState × Option ℤ) × (AngleCalcState × Option ℤ) :=
  match results with
  | none => ((stR, none), (stL, none))
  | some lms =>
      (extract_arm_angle calc_angle lms cfg.right_landmarks stR,
       extract_arm_angle calc_angle lms cfg.left_landmarks stL)

/-- numpy.mean: arithmetic mean (call sites guard against empty input). -/
def npMean (values : List ℚ) : ℚ := values.sum / values.length

/-- numpy.percentile with the default linear-interpolation method, on an
already sorted list: position (n-1)·q/100, linearly interpolated. -/
def percentileQ (s : List ℚ) (q : ℚ) : ℚ :=
  let n := s.length
  if n = 0 then 0
  else
    let pos := q * ((n : ℚ) - 1) / 100
    let i := (⌊pos⌋).toNat
    let frac := pos - (⌊pos⌋ : ℚ)
    if i + 1 < n then s.getD i 0 + frac * (s.getD (i + 1) 0 - s.getD i 0)
    else s.getD (n - 1) 0

/-- calibration.CalibrationManager._calculate_robust_average: IQR outlier
rejection then mean (mean of all when fewer than 3 samples or when the
filter removes everything; 0 for the empty list). -/
def robust_average (values : List ℚ) : ℚ :=
  if values = [] then 0
  else if values.length < 3 then npMean values
  else
    let s := sortQ values
    let q1 := percentileQ s 25
    let q3 := percentileQ s 75
    let iqr := q3 - q1
    let lower := q1 - 3/2 * iqr
    let upper := q3 + 3/2 * iqr
    let filtered := values.filter (fun v => decide (lower ≤ v) && decide (v ≤ upper))
    if filtered = [] then npMean values else npMean filtered

/-- The four per-side calibration sample buffers of models.CalibrationData. -/
structure CalibSamples where
  extended_right : List ℚ
  extended_left : List ℚ
  contracted_right : List ℚ
  contracted_left : List ℚ
deriving DecidableEq

/-- The extended threshold _finalize_calibration computes before the range
check: int(min(right_ext, left_ext) - 8). -/
def raw_extended_threshold (sm : CalibSamples) : ℤ :=
  pyInt (min (robust_average sm.extended_right) (robust_average sm.extended_left) - 8)

/-- The contracted threshold _finalize_calibration computes before the
range check: int(max(right_con, left_con) + 8). -/
def raw_contracted_threshold (sm : CalibSamples) : ℤ :=
  pyInt (max (robust_average sm.contracted_right) (robust_average sm.contracted_left) + 8)

/-- calibration.CalibrationManager._finalize_calibration: compute robust
thresholds and safety range, fall back to the defaults (with a warning
message) when the derived range is below 40, then deactivate calibration
and set the completion message (overwriting any warning). -/
def finalize_calibration (sm : CalibSamples) (d : CalibrationData) : CalibrationData :=
  let ext := raw_extended_threshold sm
  let con := raw_contracted_threshold sm
  let d1 := { d with
              extended_threshold := ext,
              contracted_threshold := con,
              safe_angle_min := max 15 (con - 15),
              safe_angle_max := min 175 (ext + 15) }
  let d2 :=
    if d1.extended_threshold - d1.contracted_threshold < 40 then
      { d1 with
        contracted_threshold := 50,
        extended_threshold := 160,
        safe_angle_min := 30,
        safe_angle_max := 175,
        message := "CALIBRATION WARNING: Using default ranges" }
    else d1
  { d2 with active := false, message := "CALIBRATION COMPLETE" }

/-- w occurs as a prefix of s (on character lists). -/
def starts_with : List Char → List Char → Bool
  | [], _ => true
  | _ :: _, [] => false
  | a :: as, b :: bs => a = b && starts_with as bs

/-- w occurs as a contiguous substring of s (on character lists). -/
def has_sub (w : List Char) : List Char → Bool
  | [] => starts_with w []
  | c :: rest => starts_with w (c :: rest) || has_sub w rest

/-- msg contains the word w. -/
def message_contains (msg w : String) : Bool := has_sub w.data msg.data

/-- Calibration sample buffers whose derived range is 35 degrees
(extended averages 100, contracted averages 49). -/
def c3_samples : CalibSamples :=
  { extended_right := [100], extended_left := [100],
    contracted_right := [49], contracted_left := [49] }

/-- Calibration sample buffers with a very small contracted average
(extended averages 100, contracted averages 2). -/
def c6_samples : CalibSamples :=
  { extended_right := [100], extended_left := [100],
    contracted_right := [2], contracted_left := [2] }

/-- ArmMetrics in stage UP with empty feedback (other fields initial). -/
def c5_metrics : ArmMetrics := { initial_arm_metrics 0 with stage := ArmStage.UP }

/-- The initial per-side state triple (RepCounter arm state, metrics,
SessionHistory feedback count), with metrics creation time 0. -/
def c9_start : RepArmState × ArmMetrics × ℕ :=
  (initial_rep_arm_state, initial_arm_metrics 0, 0)

/-- A reachable trace from the initial state under the default thresholds:
hold extended, confirm DOWN→UP, then request MOVING_DOWN; the last frame
(100°, t = 1.3 s) leaves that request blocked only by the velocity gate. -/
def c9_frames : List (ℚ × ℚ) :=
  [(165, 0), (165, 1/10), (165, 2/10), (165, 3/10),
   (45, 4/10), (45, 6/10), (45, 8/10), (45, 1),
   (60, 11/10), (60, 23/20), (100, 13/10)]

/-- State after processing c9_frames once (the last frame processed once). -/
def c9_once : RepArmState × ArmMetrics × ℕ :=
  process_trace default_calibration c9_start c9_frames

/-- State after processing the last frame of c9_frames a second time with
the identical timestamp. -/
def c9_twice : RepArmState × ArmMetrics × ℕ :=
  rep_step default_calibration c9_once (100, 13/10)

/-- A per-side state in stage UP with a pending MOVING_DOWN request and a
steady history, from which a frame (100°, t = 1) credits a rep. -/
def c2_start : RepArmState × ArmMetrics × ℕ :=
  ({ angle_history := [100, 100, 100, 100], pending_state := some ArmStage.MOVING_DOWN,
     pending_state_start := 0, rep_start_time := 0 },
   { rep_count := 0, stage := ArmStage.UP, angle := 0, rep_time := 0,
     min_rep_time := 0, curr_rep_time := 0, feedback := "", last_down_time := 0 }, 0)

/-- Frames taking c2_start from the first credit back to stage UP with a
fresh pending MOVING_DOWN request, so that (100°, t = 2.4 s) credits again. -/
def c2_mid : List (ℚ × ℚ) :=
  [(40, 11/10), (40, 13/10), (40, 3/2), (40, 17/10), (100, 9/5), (100, 2), (100, 11/5)]

/-- Intermediate states of the c9 trace (one per processed frame). -/
def c9s1 : RepArmState × ArmMetrics × ℕ :=
  ({ angle_history := [165], pending_state := none,
     pending_state_start := 0, rep_start_time := 0 },
   { rep_count := 0, stage := ArmStage.DOWN, angle := 165, rep_time := 0,
     min_rep_time := 0, curr_rep_time := 0, feedback := "", last_down_time := 0 }, 0)

def c9s2 : RepArmState × ArmMetrics × ℕ :=
  ({ angle_history := [165, 165], pending_state := none,
     pending_state_start := 0, rep_start_time := 0 },
   { rep_count := 0, stage := ArmStage.DOWN, angle := 165, rep_time := 0,
     min_rep_time := 0, curr_rep_time := 0, feedback := "", last_down_time := 0 }, 0)

def c9s3 : RepArmState × ArmMetrics × ℕ :=
  ({ angle_history := [165, 165, 165], pending_state := none,
     pending_state_start := 0, rep_start_time := 0 },
   { rep_count := 0, stage := ArmStage.DOWN, angle := 165, rep_time := 0,
     min_rep_time := 0, curr_rep_time := 0, feedback := "", last_down_time := 0 }, 0)

def c9s4 : RepArmState × ArmMetrics × ℕ :=
  ({ angle_history := [165, 165, 165, 165], pending_state := none,
     pending_state_start := 0, rep_start_time := 0 },
   { rep_count := 0, stage := ArmStage.DOWN, angle := 165, rep_time := 0,
     min_rep_time := 0, curr_rep_time := 0, feedback := "", last_down_time := 0 }, 0)

def c9s5 : RepArmState × ArmMetrics × ℕ :=
  ({ angle_history := [165, 165, 165, 165, 45], pending_state := some ArmStage.UP,
     pending_state_start := 2/5, rep_start_time := 0 },
   { rep_count := 0, stage := ArmStage.DOWN, angle := 45, rep_time := 0,
     min_rep_time := 0, curr_rep_time := 0, feedback := "", last_down_time := 0 }, 0)

def c9s6 : RepArmState × ArmMetrics × ℕ :=
  ({ angle_history := [165, 165, 165, 165, 45, 45], pending_state := some ArmStage.UP,
     pending_state_start := 2/5, rep_start_time := 0 },
   { rep_count := 0, stage := ArmStage.DOWN, angle := 45, rep_time := 0,
     min_rep_time := 0, curr_rep_time := 0, feedback := "", last_down_time := 0 }, 0)

def c9s7 : RepArmState × ArmMetrics × ℕ :=
  ({ angle_history := [165, 165, 165, 165, 45, 45, 45], pending_state := some ArmStage.UP,
     pending_state_start := 2/5, rep_start_time := 0 },
   { rep_count := 0, stage := ArmStage.DOWN, angle := 45, rep_time := 0,
     min_rep_time := 0, curr_rep_time := 0, feedback := "", last_down_time := 0 }, 0)

def c9s8 : RepArmState × ArmMetrics × ℕ :=
  ({ angle_history := [165, 165, 165, 165, 45, 45, 45, 45], pending_state := some ArmStage.UP,
     pending_state_start := 2/5, rep_start_time := 1 },
   { rep_count := 0, stage := ArmStage.UP, angle := 45, rep_time := 0,
     min_rep_time := 0, curr_rep_time := 0, feedback := "", last_down_time := 0 }, 0)

def c9s9 : RepArmState × ArmMetrics × ℕ :=
  ({ angle_history := [165, 165, 165, 45, 45, 45, 45, 60],
     pending_state := some ArmStage.MOVING_DOWN,
     pending_state_start := 11/10, rep_start_time := 1 },
   { rep_count := 0, stage := ArmStage.UP, angle := 60, rep_time := 0,
     min_rep_time := 0, curr_rep_time := 1/10, feedback := "", last_down_time := 0 }, 0)

def c9s10 : RepArmState × ArmMetrics × ℕ :=
  ({ angle_history := [165, 165, 45, 45, 45, 45, 60, 60],
     pending_state := some ArmStage.MOVING_DOWN,
     pending_state_start := 11/10, rep_start_time := 1 },
   { rep_count := 0, stage := ArmStage.UP, angle := 60, rep_time := 0,
     min_rep_time := 0, curr_rep_time := 3/20, feedback := "", last_down_time := 0 }, 0)

def c9s11 : RepArmState × ArmMetrics × ℕ :=
  ({ angle_history := [165, 45, 45, 45, 45, 60, 60, 100],
     pending_state := some ArmStage.MOVING_DOWN,
     pending_state_start := 11/10, rep_start_time := 1 },
   { rep_count := 0, stage := ArmStage.UP, angle := 100, rep_time := 0,
     min_rep_time := 0, curr_rep_time := 3/10, feedback := "Curl Higher",
     last_down_time := 0 }, 1)

def c9s12 : RepArmState × ArmMetrics × ℕ :=
  ({ angle_history := [45, 45, 45, 45, 60, 60, 100, 100],
     pending_state := some ArmStage.MOVING_DOWN,
     pending_state_start := 11/10, rep_start_time := 1 },
   { rep_count := 1, stage := ArmStage.MOVING_DOWN, angle := 100, rep_time := 13/10,
     min_rep_time := 13/10, curr_rep_time := 0, feedback := "Extend Fully",
     last_down_time := 13/10 }, 2)

/-- Intermediate states of the c2 trace (one per processed frame). -/
def c2s1 : RepArmState × ArmMetrics × ℕ :=
  ({ angle_history := [100, 100, 100, 100, 100],
     pending_state := some ArmStage.MOVING_DOWN,
     pending_state_start := 0, rep_start_time := 0 },
   { rep_count := 1, stage := ArmStage.MOVING_DOWN, angle := 100, rep_time := 1,
     min_rep_time := 1, curr_rep_time := 0, feedback := "Extend Fully",
     last_down_time := 1 }, 1)

def c2s2 : RepArmState × ArmMetrics × ℕ :=
  ({ angle_history := [100, 100, 100, 100, 100, 40], pending_state := some ArmStage.UP,
     pending_state_start := 11/10, rep_start_time := 0 },
   { rep_count := 1, stage := ArmStage.MOVING_DOWN, angle := 40, rep_time := 1,
     min_rep_time := 1, curr_rep_time := 0, feedback := "", last_down_time := 1 }, 1)

def c2s3 : RepArmState × ArmMetrics × ℕ :=
  ({ angle_history := [100, 100, 100, 100, 100, 40, 40], pending_state := some ArmStage.UP,
     pending_state_start := 11/10, rep_start_time := 0 },
   { rep_count := 1, stage := ArmStage.MOVING_DOWN, angle := 40, rep_time := 1,
     min_rep_time := 1, curr_rep_time := 0, feedback := "", last_down_time := 1 }, 1)

def c2s4 : RepArmState × ArmMetrics × ℕ :=
  ({ angle_history := [100, 100, 100, 100, 100, 40, 40, 40],
     pending_state := some ArmStage.UP,
     pending_state_start := 11/10, rep_start_time := 0 },
   { rep_count := 1, stage := ArmStage.MOVING_DOWN, angle := 40, rep_time := 1,
     min_rep_time := 1, curr_rep_time := 0, feedback := "", last_down_time := 1 }, 1)

def c2s5 : RepArmState × ArmMetrics × ℕ :=
  ({ angle_history := [100, 100, 100, 100, 40, 40, 40, 40],
     pending_state := some ArmStage.UP,
     pending_state_start := 11/10, rep_start_time := 17/10 },
   { rep_count := 1, stage := ArmStage.UP, angle := 40, rep_time := 1,
     min_rep_time := 1, curr_rep_time := 0, feedback := "", last_down_time := 1 }, 1)

def c2s6 : RepArmState × ArmMetrics × ℕ :=
  ({ angle_history := [100, 100, 100, 40, 40, 40, 40, 100],
     pending_state := some ArmStage.MOVING_DOWN,
     pending_state_start := 9/5, rep_start_time := 17/10 },
   { rep_count := 1, stage := ArmStage.UP, angle := 100, rep_time := 1,
     min_rep_time := 1, curr_rep_time := 1/10, feedback := "", last_down_time := 1 }, 1)

def c2s7 : RepArmState × ArmMetrics × ℕ :=
  ({ angle_history := [100, 100, 40, 40, 40, 40, 100, 100],
     pending_state := some ArmStage.MOVING_DOWN,
     pending_state_start := 9/5, rep_start_time := 17/10 },
   { rep_count := 1, stage := ArmStage.UP, angle := 100, rep_time := 1,
     min_rep_time := 1, curr_rep_time := 3/10, feedback := "", last_down_time := 1 }, 1)

def c2s8 : RepArmState × ArmMetrics × ℕ :=
  ({ angle_history := [100, 40, 40, 40, 40, 100, 100, 100],
     pending_state := some ArmStage.MOVING_DOWN,
     pending_state_start := 9/5, rep_start_time := 17/10 },
   { rep_count := 1, stage := ArmStage.UP, angle := 100, rep_time := 1,
     min_rep_time := 1, curr_rep_time := 1/2, feedback := "", last_down_time := 1 }, 1)

def c2s9 : RepArmState × ArmMetrics × ℕ :=
  ({ angle_history := [40, 40, 40, 40, 100, 100, 100, 100],
     pending_state := some ArmStage.MOVING_DOWN,
     pending_state_start := 9/5, rep_start_time := 17/10 },
   { rep_count := 2, stage := ArmStage.MOVING_DOWN, angle := 100, rep_time := 7/5,
     min_rep_time := 1, curr_rep_time := 0, feedback := "Extend Fully",
     last_down_time := 12/5 }, 2)

lemma dequeAppend_length (n : ℕ) (l : List ℚ) (x : ℚ) :
    (dequeAppend n l x).length = min (l.length + 1) n := by
  unfold dequeAppend
  dsimp only
  split_ifs with h <;> simp [List.length_append] at * <;> omega

lemma pff_rep_count (cal : CalibrationData) (a : ℚ) (m : ArmMetrics) (fc : ℕ) :
    ((provide_form_feedback cal a m fc).1).rep_count = m.rep_count := by
  unfold provide_form_feedback
  split_ifs <;> rfl

lemma pff_last_down_time (cal : CalibrationData) (a : ℚ) (m : ArmMetrics) (fc : ℕ) :
    ((provide_form_feedback cal a m fc).1).last_down_time = m.last_down_time := by
  unfold provide_form_feedback
  split_ifs <;> rfl

lemma pff_stage (cal : CalibrationData) (a : ℚ) (m : ArmMetrics) (fc : ℕ) :
    ((provide_form_feedback cal a m fc).1).stage = m.stage := by
  unfold provide_form_feedback
  split_ifs <;> rfl

lemma hst_stage (s : RepArmState) (prev new : ArmStage) (m : ArmMetrics) (t : ℚ) :
    (handle_state_transition s prev new m t).2.stage = new := by
  unfold handle_state_transition
  dsimp only
  split_ifs <;> rfl

lemma hst_cases (s : RepArmState) (prev new : ArmStage) (m : ArmMetrics) (t : ℚ) :
    ((handle_state_transition s prev new m t).2.rep_count = m.rep_count ∧
     (handle_state_transition s prev new m t).2.last_down_time = m.last_down_time) ∨
    ((handle_state_transition s prev new m t).2.rep_count = m.rep_count + 1 ∧
     (handle_state_transition s prev new m t).2.last_down_time = t ∧
     min_rep_duration ≤ t - m.last_down_time) := by
  unfold handle_state_transition
  dsimp only
  split_ifs with h1 h2 h3 <;> simp_all

lemma hst_rc_of_not_credit (s : RepArmState) (prev new : ArmStage) (m : ArmMetrics) (t : ℚ)
    (h : ¬ (prev = ArmStage.UP ∧ (new = ArmStage.MOVING_DOWN ∨ new = ArmStage.DOWN))) :
    (handle_state_transition s prev new m t).2.rep_count = m.rep_count := by
  unfold handle_state_transition
  dsimp only
  split_ifs <;> simp_all

lemma tau_idem (cal : CalibrationData) (a : ℚ) (c : ArmStage) :
    determine_target_state cal a (determine_target_state cal a c) =
      determine_target_state cal a c := by
  unfold determine_target_state
  by_cases hP : a ≤ (cal.contracted_threshold : ℚ) - hysteresis_margin
  · simp [hP]
  · by_cases hQ : a ≥ (cal.extended_threshold : ℚ) + hysteresis_margin
    · simp [hP, hQ]
    · cases c <;> simp [hP, hQ] <;> split_ifs <;> simp_all

lemma hst_angle_history (s : RepArmState) (prev new : ArmStage) (m : ArmMetrics) (t : ℚ) :
    (handle_state_transition s prev new m t).1.angle_history = s.angle_history := by
  unfold handle_state_transition
  dsimp only
  split_ifs <;> rfl

lemma process_rep_early (cal : CalibrationData) (s : RepArmState) (m : ArmMetrics) (fc : ℕ)
    (a t : ℚ) (h4 : (dequeAppend 8 s.angle_history a).length < 4) :
    process_rep cal s m fc a t =
      ({ s with angle_history := dequeAppend 8 s.angle_history a }, { m with angle := a }, fc) := by
  unfold process_rep
  dsimp only
  rw [if_pos h4]

lemma process_rep_target_eq (cal : CalibrationData) (s : RepArmState) (m : ArmMetrics) (fc : ℕ)
    (a t : ℚ) (h4 : ¬ (dequeAppend 8 s.angle_history a).length < 4)
    (ht : determine_target_state cal a m.stage = m.stage) :
    (process_rep cal s m fc a t).1 =
      { s with angle_history := dequeAppend 8 s.angle_history a, pending_state := none } ∧
    (process_rep cal s m fc a t).2.1.stage = m.stage ∧
    (process_rep cal s m fc a t).2.1.rep_count = m.rep_count ∧
    (process_rep cal s m fc a t).2.1.last_down_time = m.last_down_time := by
  unfold process_rep
  dsimp only
  rw [if_neg h4]
  have hne : ¬ (determine_target_state cal a m.stage ≠ m.stage) := by simp [ht]
  rw [if_neg hne]
  dsimp only
  split_ifs <;> simp [pff_stage, pff_rep_count, pff_last_down_time]

lemma process_rep_new_pending (cal : CalibrationData) (s : RepArmState) (m : ArmMetrics)
    (fc : ℕ) (a t : ℚ) (h4 : ¬ (dequeAppend 8 s.angle_history a).length < 4)
    (ht : determine_target_state cal a m.stage ≠ m.stage)
    (hp : s.pending_state ≠ some (determine_target_state cal a m.stage)) :
    (process_rep cal s m fc a t).1 =
      { s with
        angle_history := dequeAppend 8 s.angle_history a,
        pending_state := some (determine_target_state cal a m.stage),
        pending_state_start := t } ∧
    (process_rep cal s m fc a t).2.1.stage = m.stage ∧
    (process_rep cal s m fc a t).2.1.rep_count = m.rep_count ∧
    (process_rep cal s m fc a t).2.1.last_down_time = m.last_down_time := by
  unfold process_rep
  dsimp only
  rw [if_neg h4, if_pos ht, if_neg hp]
  dsimp only
  split_ifs <;> simp [pff_stage, pff_rep_count, pff_last_down_time]

lemma process_rep_blocked (cal : CalibrationData) (s : RepArmState) (m : ArmMetrics)
    (fc : ℕ) (a t : ℚ) (h4 : ¬ (dequeAppend 8 s.angle_history a).length < 4)
    (ht : determine_target_state cal a m.stage ≠ m.stage)
    (hp : s.pending_state = some (determine_target_state cal a m.stage))
    (hc : ¬ (state_hold_time ≤ t - s.pending_state_start ∧
             velocity_after s.angle_history a < 15)) :
    (process_rep cal s m fc a t).1 =
      { s with angle_history := dequeAppend 8 s.angle_history a } ∧
    (process_rep cal s m fc a t).2.1.stage = m.stage ∧
    (process_rep cal s m fc a t).2.1.rep_count = m.rep_count ∧
    (process_rep cal s m fc a t).2.1.last_down_time = m.last_down_time := by
  simp only [velocity_after] at hc
  unfold process_rep
  dsimp only
  rw [if_neg h4, if_pos ht, if_pos hp, if_neg hc]
  dsimp only
  split_ifs <;> simp [pff_stage, pff_rep_count, pff_last_down_time]

lemma process_rep_transition (cal : CalibrationData) (s : RepArmState) (m : ArmMetrics)
    (fc : ℕ) (a t : ℚ) (h4 : ¬ (dequeAppend 8 s.angle_history a).length < 4)
    (ht : determine_target_state cal a m.stage ≠ m.stage)
    (hp : s.pending_state = some (determine_target_state cal a m.stage))
    (hc : state_hold_time ≤ t - s.pending_state_start ∧
          velocity_after s.angle_history a < 15) :
    (process_rep cal s m fc a t).1.angle_history = dequeAppend 8 s.angle_history a ∧
    (process_rep cal s m fc a t).2.1.stage = determine_target_state cal a m.stage ∧
    (process_rep cal s m fc a t).2.1.rep_count =
      (handle_state_transition { s with angle_history := dequeAppend 8 s.angle_history a }
        m.stage (determine_target_state cal a m.stage)
        { m with angle := a, feedback := "" } t).2.rep_count ∧
    (process_rep cal s m fc a t).2.1.last_down_time =
      (handle_state_transition { s with angle_history := dequeAppend 8 s.angle_history a }
        m.stage (determine_target_state cal a m.stage)
        { m with angle := a, feedback := "" } t).2.last_down_time := by
  simp only [velocity_after] at hc
  unfold process_rep
  dsimp only
  rw [if_neg h4, if_pos ht, if_pos hp, if_pos hc]
  split_ifs <;>
    simp [pff_stage, pff_rep_count, pff_last_down_time, hst_stage, hst_angle_history]

lemma rep_step_cases (cal : CalibrationData) (st : RepArmState × ArmMetrics × ℕ) (p : ℚ × ℚ) :
    ((rep_step cal st p).2.1.rep_count = st.2.1.rep_count ∧
     (rep_step cal st p).2.1.last_down_time = st.2.1.last_down_time) ∨
    ((rep_step cal st p).2.1.rep_count = st.2.1.rep_count + 1 ∧
     (rep_step cal st p).2.1.last_down_time = p.2 ∧
     min_rep_duration ≤ p.2 - st.2.1.last_down_time) := by
  obtain ⟨s, m, fc⟩ := st
  obtain ⟨a, t⟩ := p
  dsimp only [rep_step]
  by_cases h4 : (dequeAppend 8 s.angle_history a).length < 4
  · left
    rw [process_rep_early cal s m fc a t h4]
    exact ⟨rfl, rfl⟩
  · by_cases ht : determine_target_state cal a m.stage = m.stage
    · obtain ⟨-, -, h1, h2⟩ := process_rep_target_eq cal s m fc a t h4 ht
      exact Or.inl ⟨h1, h2⟩
    · by_cases hp : s.pending_state = some (determine_target_state cal a m.stage)
      · by_cases hc : state_hold_time ≤ t - s.pending_state_start ∧
            velocity_after s.angle_history a < 15
        · obtain ⟨-, -, h1, h2⟩ := process_rep_transition cal s m fc a t h4 ht hp hc
          rw [h1, h2]
          rcases hst_cases { s with angle_history := dequeAppend 8 s.angle_history a }
              m.stage (determine_target_state cal a m.stage)
              { m with angle := a, feedback := "" } t with ⟨x1, x2⟩ | ⟨x1, x2, x3⟩
          · exact Or.inl ⟨x1, x2⟩
          · exact Or.inr ⟨x1, x2, x3⟩
        · obtain ⟨-, -, h1, h2⟩ := process_rep_blocked cal s m fc a t h4 ht hp hc
          exact Or.inl ⟨h1, h2⟩
      · obtain ⟨-, -, h1, h2⟩ := process_rep_new_pending cal s m fc a t h4 ht hp
        exact Or.inl ⟨h1, h2⟩

lemma rep_step_rc_mono (cal : CalibrationData) (st : RepArmState × ArmMetrics × ℕ)
    (p : ℚ × ℚ) : st.2.1.rep_count ≤ (rep_step cal st p).2.1.rep_count := by
  rcases rep_step_cases cal st p with ⟨h1, -⟩ | ⟨h1, -, -⟩ <;> omega

lemma rep_step_ldt_mono (cal : CalibrationData) (st : RepArmState × ArmMetrics × ℕ)
    (p : ℚ × ℚ) : st.2.1.last_down_time ≤ (rep_step cal st p).2.1.last_down_time := by
  rcases rep_step_cases cal st p with ⟨-, h2⟩ | ⟨-, h2, h3⟩
  · rw [h2]
  · rw [h2]
    have : (0:ℚ) < min_rep_duration := by norm_num [min_rep_duration]
    linarith

lemma rep_step_credit (cal : CalibrationData) (st : RepArmState × ArmMetrics × ℕ)
    (p : ℚ × ℚ) (h : st.2.1.rep_count < (rep_step cal st p).2.1.rep_count) :
    (rep_step cal st p).2.1.last_down_time = p.2 ∧
    min_rep_duration ≤ p.2 - st.2.1.last_down_time := by
  rcases rep_step_cases cal st p with ⟨h1, -⟩ | ⟨-, h2, h3⟩
  · omega
  · exact ⟨h2, h3⟩

lemma process_trace_cons (cal : CalibrationData) (st : RepArmState × ArmMetrics × ℕ)
    (p : ℚ × ℚ) (l : List (ℚ × ℚ)) :
    process_trace cal st (p :: l) = process_trace cal (rep_step cal st p) l := rfl

lemma process_trace_append (cal : CalibrationData) (st : RepArmState × ArmMetrics × ℕ)
    (l l' : List (ℚ × ℚ)) :
    process_trace cal st (l ++ l') = process_trace cal (process_trace cal st l) l' := by
  unfold process_trace
  exact List.foldl_append _ _ _ _

lemma trace_rc_mono (cal : CalibrationData) (l : List (ℚ × ℚ)) :
    ∀ st : RepArmState × ArmMetrics × ℕ,
      st.2.1.rep_count ≤ (process_trace cal st l).2.1.rep_count := by
  induction l with
  | nil => intro st; exact le_refl _
  | cons p l ih =>
      intro st
      rw [process_trace_cons]
      exact le_trans (rep_step_rc_mono cal st p) (ih _)

lemma trace_ldt_mono (cal : CalibrationData) (l : List (ℚ × ℚ)) :
    ∀ st : RepArmState × ArmMetrics × ℕ,
      st.2.1.last_down_time ≤ (process_trace cal st l).2.1.last_down_time := by
  induction l with
  | nil => intro st; exact le_refl _
  | cons p l ih =>
      intro st
      rw [process_trace_cons]
      exact le_trans (rep_step_ldt_mono cal st p) (ih _)

lemma tau_down_of_band (cal : CalibrationData) (a : ℚ)
    (ha : (cal.contracted_threshold : ℚ) + hysteresis_margin < a ∧
          a < (cal.extended_threshold : ℚ) - hysteresis_margin) :
    determine_target_state cal a ArmStage.DOWN = ArmStage.MOVING_UP := by
  obtain ⟨h1, h2⟩ := ha
  unfold determine_target_state hysteresis_margin at *
  rw [if_neg (by linarith), if_neg (by push_neg; linarith)]
  dsimp only
  rw [if_neg (by push_neg; linarith)]

lemma tau_mu_of_band (cal : CalibrationData) (a : ℚ)
    (ha : (cal.contracted_threshold : ℚ) + hysteresis_margin < a ∧
          a < (cal.extended_threshold : ℚ) - hysteresis_margin) :
    determine_target_state cal a ArmStage.MOVING_UP = ArmStage.MOVING_UP := by
  obtain ⟨h1, h2⟩ := ha
  unfold determine_target_state hysteresis_margin at *
  rw [if_neg (by linarith), if_neg (by push_neg; linarith)]
  dsimp only
  rw [if_neg (by linarith), if_neg (by push_neg; linarith)]

lemma band_step (cal : CalibrationData) (s : RepArmState) (m : ArmMetrics) (fc : ℕ)
    (a t : ℚ)
    (ha : (cal.contracted_threshold : ℚ) + hysteresis_margin < a ∧
          a < (cal.extended_threshold : ℚ) - hysteresis_margin)
    (hs : m.stage = ArmStage.DOWN ∨ m.stage = ArmStage.MOVING_UP) :
    ((rep_step cal (s, m, fc) (a, t)).2.1.stage = ArmStage.DOWN ∨
     (rep_step cal (s, m, fc) (a, t)).2.1.stage = ArmStage.MOVING_UP) ∧
    (rep_step cal (s, m, fc) (a, t)).2.1.rep_count = m.rep_count ∧
    (m.stage = ArmStage.MOVING_UP →
      (rep_step cal (s, m, fc) (a, t)).2.1.stage = ArmStage.MOVING_UP) := by
  dsimp only [rep_step]
  by_cases h4 : (dequeAppend 8 s.angle_history a).length < 4
  · rw [process_rep_early cal s m fc a t h4]
    exact ⟨hs, rfl, fun hmu => hmu⟩
  · rcases hs with hs | hs
    · -- stage DOWN, target MOVING_UP: no rep credit in any branch
      have htgt : determine_target_state cal a m.stage = ArmStage.MOVING_UP := by
        rw [hs]; exact tau_down_of_band cal a ha
      have ht : determine_target_state cal a m.stage ≠ m.stage := by
        rw [htgt, hs]; intro h; exact ArmStage.noConfusion h
      by_cases hp : s.pending_state = some (determine_target_state cal a m.stage)
      · by_cases hc : state_hold_time ≤ t - s.pending_state_start ∧
            velocity_after s.angle_history a < 15
        · obtain ⟨-, e2, e3, -⟩ := process_rep_transition cal s m fc a t h4 ht hp hc
          rw [e2, htgt] at *
          refine ⟨Or.inr rfl, ?_, fun _ => rfl⟩
          rw [e3, hst_rc_of_not_credit]
          intro hcon
          rw [hs] at hcon
          exact ArmStage.noConfusion hcon.1
        · obtain ⟨-, e2, e3, -⟩ := process_rep_blocked cal s m fc a t h4 ht hp hc
          rw [e2, e3]
          exact ⟨Or.inl hs, rfl, fun hmu => by rw [hs] at hmu; exact ArmStage.noConfusion hmu⟩
      · obtain ⟨-, e2, e3, -⟩ := process_rep_new_pending cal s m fc a t h4 ht hp
        rw [e2, e3]
        exact ⟨Or.inl hs, rfl, fun hmu => by rw [hs] at hmu; exact ArmStage.noConfusion hmu⟩
    · -- stage MOVING_UP: target equals the stage, nothing changes
      have ht : determine_target_state cal a m.stage = m.stage := by
        rw [hs]; exact tau_mu_of_band cal a ha
      obtain ⟨-, e2, e3, -⟩ := process_rep_target_eq cal s m fc a t h4 ht
      rw [e2, e3]
      exact ⟨Or.inr hs, rfl, fun _ => hs⟩

lemma band_trace (cal : CalibrationData) (l : List (ℚ × ℚ))
    (hl : ∀ p ∈ l, (cal.contracted_threshold : ℚ) + hysteresis_margin < p.1 ∧
          p.1 < (cal.extended_threshold : ℚ) - hysteresis_margin) :
    ∀ st : RepArmState × ArmMetrics × ℕ,
      (st.2.1.stage = ArmStage.DOWN ∨ st.2.1.stage = ArmStage.MOVING_UP) →
      ((process_trace cal st l).2.1.stage = ArmStage.DOWN ∨
       (process_trace cal st l).2.1.stage = ArmStage.MOVING_UP) ∧
      (process_trace cal st l).2.1.rep_count = st.2.1.rep_count ∧
      (st.2.1.stage = ArmStage.MOVING_UP →
        (process_trace cal st l).2.1.stage = ArmStage.MOVING_UP) := by
  induction l with
  | nil => intro st hstg; exact ⟨hstg, rfl, fun h => h⟩
  | cons p l ih =>
      intro st hstg
      rw [process_trace_cons]
      have hp := hl p (List.mem_cons_self p l)
      obtain ⟨s, m, fc⟩ := st
      obtain ⟨a, t⟩ := p
      obtain ⟨j1, j2, j3⟩ := band_step cal s m fc a t hp hstg
      have hrest := fun p hp => hl p (List.mem_cons_of_mem _ hp)
      obtain ⟨k1, k2, k3⟩ := ih hrest (rep_step cal (s, m, fc) (a, t)) j1
      refine ⟨k1, by rw [k2, j2], fun hmu => k3 (j3 hmu)⟩

/-- Claim C1: on a confirmed transition out of UP into MOVING_DOWN or DOWN at
time t, a rep is credited iff t − last_down_time ≥ min_rep_duration (0.6 s);
on credit exactly rep_count + 1, rep_time = t − last_down_time, min_rep_time
= min(min_rep_time, rep_time) seeded with rep_time when min_rep_time is
still 0, last_down_time = t and curr_rep_time = 0 are written (besides the
stage); without credit only the stage changes; and no transition that is
not out of UP into MOVING_DOWN or DOWN ever changes rep_count. -/
theorem rep_credit_iff (s : RepArmState) (m : ArmMetrics) (t : ℚ) :
    (∀ next, next = ArmStage.MOVING_DOWN ∨ next = ArmStage.DOWN →
      (min_rep_duration ≤ t - m.last_down_time →
        handle_state_transition s ArmStage.UP next m t =
          (s, { m with
                stage := next,
                rep_count := m.rep_count + 1,
                rep_time := t - m.last_down_time,
                min_rep_time :=
                  if m.min_rep_time = 0 then t - m.last_down_time
                  else min (t - m.last_down_time) m.min_rep_time,
                last_down_time := t,
                curr_rep_time := 0 })) ∧
      (¬ min_rep_duration ≤ t - m.last_down_time →
        handle_state_transition s ArmStage.UP next m t = (s, { m with stage := next })) ∧
      ((handle_state_transition s ArmStage.UP next m t).2.rep_count = m.rep_count + 1 ↔
        min_rep_duration ≤ t - m.last_down_time)) ∧
    (∀ prev next,
      ¬ (prev = ArmStage.UP ∧ (next = ArmStage.MOVING_DOWN ∨ next = ArmStage.DOWN)) →
      (handle_state_transition s prev next m t).2.rep_count = m.rep_count) := by
  constructor
  · intro next hn
    refine ⟨?_, ?_, ?_, ?_⟩
    · intro hd
      unfold handle_state_transition
      dsimp only
      rw [if_pos rfl, if_pos hn, if_pos hd]
    · intro hd
      unfold handle_state_transition
      dsimp only
      rw [if_pos rfl, if_pos hn, if_neg hd]
    · intro hrc
      by_contra hd
      unfold handle_state_transition at hrc
      dsimp only at hrc
      rw [if_pos rfl, if_pos hn, if_neg hd] at hrc
      dsimp only at hrc
      omega
    · intro hd
      unfold handle_state_transition
      dsimp only
      rw [if_pos rfl, if_pos hn, if_pos hd]
  · intro prev next hpn
    exact hst_rc_of_not_credit s prev next m t hpn

/-- Witness for C1: a concrete UP → MOVING_DOWN transition at t = 1 with
last_down_time 0 satisfies the duration bound and credits exactly one rep. -/
theorem rep_credit_iff_witness :
    min_rep_duration ≤ (1:ℚ) - (initial_arm_metrics 0).last_down_time ∧
    (handle_state_transition initial_rep_arm_state ArmStage.UP ArmStage.MOVING_DOWN
      (initial_arm_metrics 0) 1).2.rep_count = 1 := by
  refine ⟨by norm_num [initial_arm_metrics, min_rep_duration], ?_⟩
  have h := ((rep_credit_iff initial_rep_arm_state (initial_arm_metrics 0) 1).1
    ArmStage.MOVING_DOWN (Or.inl rfl)).2.2.mpr
      (by norm_num [initial_arm_metrics, min_rep_duration])
  simpa [initial_arm_metrics] using h

/-- Claim C10 (amended framing is the claim itself, which holds): while the
side's history holds fewer than 3 samples before the call (so fewer than 4
after recording), process_rep only appends the sample and sets
metrics.angle; arm state, stage, rep data, feedback and the feedback count
are untouched. -/
theorem warmup_records_only (cal : CalibrationData) (s : RepArmState) (m : ArmMetrics)
    (fc : ℕ) (a t : ℚ) (h : s.angle_history.length < 3) :
    process_rep cal s m fc a t =
      ({ s with angle_history := s.angle_history ++ [a] }, { m with angle := a }, fc) := by
  have h8 : dequeAppend 8 s.angle_history a = s.angle_history ++ [a] := by
    unfold dequeAppend
    dsimp only
    rw [if_neg (by simp only [List.length_append, List.length_singleton]; omega)]
  have h4 : (dequeAppend 8 s.angle_history a).length < 4 := by
    rw [dequeAppend_length]; omega
  rw [process_rep_early cal s m fc a t h4, h8]

/-- Witness for C10: the very first sample only lands in the history and in
metrics.angle. -/
theorem warmup_records_only_witness :
    initial_rep_arm_state.angle_history.length < 3 ∧
    process_rep default_calibration initial_rep_arm_state (initial_arm_metrics 0) 0 90 1 =
      ({ initial_rep_arm_state with
         angle_history := initial_rep_arm_state.angle_history ++ [90] },
       { initial_arm_metrics 0 with angle := 90 }, 0) :=
  ⟨by decide, warmup_records_only default_calibration initial_rep_arm_state
    (initial_arm_metrics 0) 0 90 1 (by decide)⟩

/-- Counterexample to C4 as stated: on the very first sample 0.75 the
smoother returns int(0.75) = 0, while the claimed round(0.75) is 1. -/
theorem smoothed_angle_round_counterexample :
    (get_smoothed_angle { buffer := [], ema := none } (3/4)).2 = 0 ∧
    (get_smoothed_angle_claim { buffer := [], ema := none } (3/4)).2 = 1 ∧
    (get_smoothed_angle { buffer := [], ema := none } (3/4)).2 ≠
      (get_smoothed_angle_claim { buffer := [], ema := none } (3/4)).2 := by
  refine ⟨?_, ?_, ?_⟩ <;>
    norm_num [get_smoothed_angle, get_smoothed_angle_claim, medianQ, sortQ, insortQ,
      dequeAppend, pyInt, ratRound, alpha]

/-- Claim C4 amended: get_smoothed_angle appends to the capacity-7 window,
takes the window median m, updates the EMA by the α = 0.5 convex
combination (m + e)/2 seeded with m on the first sample, and returns
int(e) truncated toward zero (not round(e)). -/
theorem smoothed_angle_truncates (st : AngleCalcState) (a : ℚ) :
    get_smoothed_angle st a = get_smoothed_angle_amended st a := by
  cases hE : st.ema with
  | none => simp [get_smoothed_angle, get_smoothed_angle_amended, hE]
  | some e0 =>
      have h : alpha * medianQ (dequeAppend 7 st.buffer a) + (1 - alpha) * e0 =
          (medianQ (dequeAppend 7 st.buffer a) + e0) / 2 := by
        unfold alpha; ring
      simp [get_smoothed_angle, get_smoothed_angle_amended, hE, h]

lemma c9_step1 : rep_step default_calibration c9_start (165, 0) = c9s1 := by
  norm_num +decide [rep_step, process_rep, dequeAppend, negIdx, determine_target_state,
    handle_state_transition, provide_form_feedback, default_calibration,
    hysteresis_margin, state_hold_time, min_rep_duration, List.getD,
    c9_start, initial_rep_arm_state, initial_arm_metrics, c9s1]

lemma c9_step2 : rep_step default_calibration c9s1 (165, 1/10) = c9s2 := by
  norm_num +decide [rep_step, process_rep, dequeAppend, negIdx, determine_target_state,
    handle_state_transition, provide_form_feedback, default_calibration,
    hysteresis_margin, state_hold_time, min_rep_duration, List.getD,
    c9s1, c9s2]

lemma c9_step3 : rep_step default_calibration c9s2 (165, 2/10) = c9s3 := by
  norm_num +decide [rep_step, process_rep, dequeAppend, negIdx, determine_target_state,
    handle_state_transition, provide_form_feedback, default_calibration,
    hysteresis_margin, state_hold_time, min_rep_duration, List.getD,
    c9s2, c9s3]

lemma c9_step4 : rep_step default_calibration c9s3 (165, 3/10) = c9s4 := by
  norm_num +decide [rep_step, process_rep, dequeAppend, negIdx, determine_target_state,
    handle_state_transition, provide_form_feedback, default_calibration,
    hysteresis_margin, state_hold_time, min_rep_duration, List.getD,
    c9s3, c9s4]

lemma c9_step5 : rep_step default_calibration c9s4 (45, 4/10) = c9s5 := by
  norm_num +decide [rep_step, process_rep, dequeAppend, negIdx, determine_target_state,
    handle_state_transition, provide_form_feedback, default_calibration,
    hysteresis_margin, state_hold_time, min_rep_duration, List.getD,
    c9s4, c9s5]

lemma c9_step6 : rep_step default_calibration c9s5 (45, 6/10) = c9s6 := by
  norm_num +decide [rep_step, process_rep, dequeAppend, negIdx, determine_target_state,
    handle_state_transition, provide_form_feedback, default_calibration,
    hysteresis_margin, state_hold_time, min_rep_duration, List.getD,
    c9s5, c9s6]

lemma c9_step7 : rep_step default_calibration c9s6 (45, 8/10) = c9s7 := by
  norm_num +decide [rep_step, process_rep, dequeAppend, negIdx, determine_target_state,
    handle_state_transition, provide_form_feedback, default_calibration,
    hysteresis_margin, state_hold_time, min_rep_duration, List.getD,
    c9s6, c9s7]

lemma c9_step8 : rep_step default_calibration c9s7 (45, 1) = c9s8 := by
  norm_num +decide [rep_step, process_rep, dequeAppend, negIdx, determine_target_state,
    handle_state_transition, provide_form_feedback, default_calibration,
    hysteresis_margin, state_hold_time, min_rep_duration, List.getD,
    c9s7, c9s8]

lemma c9_step9 : rep_step default_calibration c9s8 (60, 11/10) = c9s9 := by
  norm_num +decide [rep_step, process_rep, dequeAppend, negIdx, determine_target_state,
    handle_state_transition, provide_form_feedback, default_calibration,
    hysteresis_margin, state_hold_time, min_rep_duration, List.getD,
    c9s8, c9s9]

lemma c9_step10 : rep_step default_calibration c9s9 (60, 23/20) = c9s10 := by
  norm_num +decide [rep_step, process_rep, dequeAppend, negIdx, determine_target_state,
    handle_state_transition, provide_form_feedback, default_calibration,
    hysteresis_margin, state_hold_time, min_rep_duration, List.getD,
    c9s9, c9s10]

lemma c9_step11 : rep_step default_calibration c9s10 (100, 13/10) = c9s11 := by
  norm_num +decide [rep_step, process_rep, dequeAppend, negIdx, determine_target_state,
    handle_state_transition, provide_form_feedback, default_calibration,
    hysteresis_margin, state_hold_time, min_rep_duration, List.getD,
    c9s10, c9s11]

lemma c9_step12 : rep_step default_calibration c9s11 (100, 13/10) = c9s12 := by
  norm_num +decide [rep_step, process_rep, dequeAppend, negIdx, determine_target_state,
    handle_state_transition, provide_form_feedback, default_calibration,
    hysteresis_margin, state_hold_time, min_rep_duration, List.getD,
    c9s11, c9s12]

lemma c2_step1 : rep_step default_calibration c2_start (100, 1) = c2s1 := by
  norm_num +decide [rep_step, process_rep, dequeAppend, negIdx, determine_target_state,
    handle_state_transition, provide_form_feedback, default_calibration,
    hysteresis_margin, state_hold_time, min_rep_duration, List.getD,
    c2_start, c2s1]

lemma c2_step2 : rep_step default_calibration c2s1 (40, 11/10) = c2s2 := by
  norm_num +decide [rep_step, process_rep, dequeAppend, negIdx, determine_target_state,
    handle_state_transition, provide_form_feedback, default_calibration,
    hysteresis_margin, state_hold_time, min_rep_duration, List.getD,
    c2s1, c2s2]

lemma c2_step3 : rep_step default_calibration c2s2 (40, 13/10) = c2s3 := by
  norm_num +decide [rep_step, process_rep, dequeAppend, negIdx, determine_target_state,
    handle_state_transition, provide_form_feedback, default_calibration,
    hysteresis_margin, state_hold_time, min_rep_duration, List.getD,
    c2s2, c2s3]

lemma c2_step4 : rep_step default_calibration c2s3 (40, 3/2) = c2s4 := by
  norm_num +decide [rep_step, process_rep, dequeAppend, negIdx, determine_target_state,
    handle_state_transition, provide_form_feedback, default_calibration,
    hysteresis_margin, state_hold_time, min_rep_duration, List.getD,
    c2s3, c2s4]

lemma c2_step5 : rep_step default_calibration c2s4 (40, 17/10) = c2s5 := by
  norm_num +decide [rep_step, process_rep, dequeAppend, negIdx, determine_target_state,
    handle_state_transition, provide_form_feedback, default_calibration,
    hysteresis_margin, state_hold_time, min_rep_duration, List.getD,
    c2s4, c2s5]

lemma c2_step6 : rep_step default_calibration c2s5 (100, 9/5) = c2s6 := by
  norm_num +decide [rep_step, process_rep, dequeAppend, negIdx, determine_target_state,
    handle_state_transition, provide_form_feedback, default_calibration,
    hysteresis_margin, state_hold_time, min_rep_duration, List.getD,
    c2s5, c2s6]

lemma c2_step7 : rep_step default_calibration c2s6 (100, 2) = c2s7 := by
  norm_num +decide [rep_step, process_rep, dequeAppend, negIdx, determine_target_state,
    handle_state_transition, provide_form_feedback, default_calibration,
    hysteresis_margin, state_hold_time, min_rep_duration, List.getD,
    c2s6, c2s7]

lemma c2_step8 : rep_step default_calibration c2s7 (100, 11/5) = c2s8 := by
  norm_num +decide [rep_step, process_rep, dequeAppend, negIdx, determine_target_state,
    handle_state_transition, provide_form_feedback, default_calibration,
    hysteresis_margin, state_hold_time, min_rep_duration, List.getD,
    c2s7, c2s8]

lemma c2_step9 : rep_step default_calibration c2s8 (100, 12/5) = c2s9 := by
  norm_num +decide [rep_step, process_rep, dequeAppend, negIdx, determine_target_state,
    handle_state_transition, provide_form_feedback, default_calibration,
    hysteresis_margin, state_hold_time, min_rep_duration, List.getD,
    c2s8, c2s9]

/-- Counterexample to C5 as stated: at angle 100 (inside the safety range,
so no hard form error) with stage UP under the default thresholds, the
evaluation emits the ROM-guidance message "Curl Higher" and nevertheless
increments the side's feedback count from 0 to 1. -/
theorem feedback_count_counterexample :
    (provide_form_feedback default_calibration 100 c5_metrics 0).1.feedback = "Curl Higher" ∧
    ¬ ((100:ℚ) < (default_calibration.safe_angle_min : ℚ)) ∧
    ¬ ((default_calibration.safe_angle_max : ℚ) < 100) ∧
    (provide_form_feedback default_calibration 100 c5_metrics 0).2 = 1 := by
  refine ⟨?_, by norm_num [default_calibration], by norm_num [default_calibration], ?_⟩ <;>
    norm_num +decide [provide_form_feedback, c5_metrics, initial_arm_metrics,
      default_calibration]

/-- Claim C5 amended: when the evaluation starts with empty feedback, the
side's feedback count is incremented exactly when a message is emitted —
and all four messages increment it: the hard errors "Over Curling"
(angle < safe_angle_min) and "Over Extending" (angle > safe_angle_max),
and also the ROM-guidance messages "Curl Higher" and "Extend Fully". -/
theorem feedback_count_iff (cal : CalibrationData) (a : ℚ) (m : ArmMetrics) (fc : ℕ)
    (hfb : m.feedback = "") :
    ((provide_form_feedback cal a m fc).2 = fc + 1 ↔
      (provide_form_feedback cal a m fc).1.feedback ≠ "") ∧
    ((provide_form_feedback cal a m fc).1.feedback ≠ "" →
      (provide_form_feedback cal a m fc).1.feedback = "Over Curling" ∨
      (provide_form_feedback cal a m fc).1.feedback = "Over Extending" ∨
      (provide_form_feedback cal a m fc).1.feedback = "Curl Higher" ∨
      (provide_form_feedback cal a m fc).1.feedback = "Extend Fully") ∧
    (a < (cal.safe_angle_min : ℚ) →
      (provide_form_feedback cal a m fc).1.feedback = "Over Curling" ∧
      (provide_form_feedback cal a m fc).2 = fc + 1) ∧
    (¬ a < (cal.safe_angle_min : ℚ) → (cal.safe_angle_max : ℚ) < a →
      (provide_form_feedback cal a m fc).1.feedback = "Over Extending" ∧
      (provide_form_feedback cal a m fc).2 = fc + 1) ∧
    ((provide_form_feedback cal a m fc).1.feedback = "Curl Higher" →
      (provide_form_feedback cal a m fc).2 = fc + 1) ∧
    ((provide_form_feedback cal a m fc).1.feedback = "Extend Fully" →
      (provide_form_feedback cal a m fc).2 = fc + 1) := by
  unfold provide_form_feedback
  split_ifs <;> simp_all +decide

/-- Witness for C5 (amended): a hard "Over Curling" error at angle 20 under
the default thresholds increments the count. -/
theorem feedback_count_iff_witness :
    c5_metrics.feedback = "" ∧
    ((provide_form_feedback default_calibration 20 c5_metrics 0).1.feedback = "Over Curling" ∧
     (provide_form_feedback default_calibration 20 c5_metrics 0).2 = 0 + 1) :=
  ⟨rfl, (feedback_count_iff default_calibration 20 c5_metrics 0 rfl).2.2.1
    (by norm_num [default_calibration])⟩

/-- Counterexample to C3 as stated: samples with robust averages 100
(extended) and 49 (contracted) derive thresholds 92/57, a range of 35 ≥ 30,
yet the code falls back to the defaults (its cutoff is 40, not 30), and
after finalization the message is "CALIBRATION COMPLETE", which does not
contain the word "WARNING". -/
theorem calibration_range_counterexample :
    raw_extended_threshold c3_samples = 92 ∧
    raw_contracted_threshold c3_samples = 57 ∧
    (finalize_calibration c3_samples default_calibration).contracted_threshold = 50 ∧
    (finalize_calibration c3_samples default_calibration).extended_threshold = 160 ∧
    (finalize_calibration c3_samples default_calibration).message = "CALIBRATION COMPLETE" ∧
    message_contains (finalize_calibration c3_samples default_calibration).message
      "WARNING" = false := by
  have h1 : raw_extended_threshold c3_samples = 92 := by
    norm_num [raw_extended_threshold, robust_average, npMean, pyInt, c3_samples]
  have h2 : raw_contracted_threshold c3_samples = 57 := by
    norm_num [raw_contracted_threshold, robust_average, npMean, pyInt, c3_samples]
  refine ⟨h1, h2, ?_, ?_, ?_, ?_⟩ <;>
    simp only [finalize_calibration, h1, h2] <;> norm_num +decide [message_contains,
      has_sub, starts_with]

/-- Claim C3 amended: finalization falls back to the default thresholds
50/160/30/175 exactly when the derived range is below 40 (not 30); with
range at least 40 the computed thresholds are kept; and in either case the
message after finalization is "CALIBRATION COMPLETE" — the intermediate
WARNING message is unconditionally overwritten, so it never contains the
word "WARNING" — and calibration is deactivated. -/
theorem finalize_calibration_behavior (sm : CalibSamples) (d : CalibrationData) :
    (raw_extended_threshold sm - raw_contracted_threshold sm < 40 →
      (finalize_calibration sm d).contracted_threshold = 50 ∧
      (finalize_calibration sm d).extended_threshold = 160 ∧
      (finalize_calibration sm d).safe_angle_min = 30 ∧
      (finalize_calibration sm d).safe_angle_max = 175) ∧
    (40 ≤ raw_extended_threshold sm - raw_contracted_threshold sm →
      (finalize_calibration sm d).contracted_threshold = raw_contracted_threshold sm ∧
      (finalize_calibration sm d).extended_threshold = raw_extended_threshold sm ∧
      (finalize_calibration sm d).safe_angle_min =
        max 15 (raw_contracted_threshold sm - 15) ∧
      (finalize_calibration sm d).safe_angle_max =
        min 175 (raw_extended_threshold sm + 15)) ∧
    (finalize_calibration sm d).message = "CALIBRATION COMPLETE" ∧
    message_contains (finalize_calibration sm d).message "WARNING" = false ∧
    (finalize_calibration sm d).active = false := by
  unfold finalize_calibration
  dsimp only
  split_ifs with h
  · exact ⟨fun _ => ⟨rfl, rfl, rfl, rfl⟩, fun h2 => absurd h (by omega),
      rfl, by norm_num +decide [message_contains, has_sub, starts_with], rfl⟩
  · exact ⟨fun h2 => absurd h2 (by omega), fun _ => ⟨rfl, rfl, rfl, rfl⟩,
      rfl, by norm_num +decide [message_contains, has_sub, starts_with], rfl⟩

/-- Witness for C3 (amended): the c3 samples derive range 35 < 40 and the
fallback contracted threshold 50 is used. -/
theorem finalize_calibration_behavior_witness :
    raw_extended_threshold c3_samples - raw_contracted_threshold c3_samples < 40 ∧
    (finalize_calibration c3_samples default_calibration).contracted_threshold = 50 := by
  have h : raw_extended_threshold c3_samples - raw_contracted_threshold c3_samples < 40 := by
    norm_num [raw_extended_threshold, raw_contracted_threshold, robust_average,
      npMean, pyInt, c3_samples]
  exact ⟨h, ((finalize_calibration_behavior c3_samples default_calibration).1 h).1⟩

/-- Counterexample to C6 as stated: with contracted averages 2 and extended
averages 100 the kept thresholds are contracted = 10 and extended = 92
(range 82 ≥ 40, so no fallback), but safe_angle_min = max(15, 10 − 15) = 15
exceeds the contracted threshold, violating
safe_angle_min ≤ contracted_threshold after finalization. -/
theorem safe_range_counterexample :
    (finalize_calibration c6_samples default_calibration).contracted_threshold = 10 ∧
    (finalize_calibration c6_samples default_calibration).safe_angle_min = 15 ∧
    ¬ ((finalize_calibration c6_samples default_calibration).safe_angle_min ≤
       (finalize_calibration c6_samples default_calibration).contracted_threshold) := by
  have h1 : raw_extended_threshold c6_samples = 92 := by
    norm_num [raw_extended_threshold, robust_average, npMean, pyInt, c6_samples]
  have h2 : raw_contracted_threshold c6_samples = 10 := by
    norm_num [raw_contracted_threshold, robust_average, npMean, pyInt, c6_samples]
  refine ⟨?_, ?_, ?_⟩ <;> simp only [finalize_calibration, h1, h2] <;> norm_num

/-- Claim C6 amended: after every finalization contracted_threshold <
extended_threshold holds unconditionally; safe_angle_min ≤
contracted_threshold holds whenever contracted_threshold ≥ 15; and
safe_angle_max ≥ extended_threshold holds whenever extended_threshold
≤ 175 (both side conditions hold in particular whenever the fallback
fires, and can only fail for extreme calibration averages). -/
theorem finalize_invariants (sm : CalibSamples) (d : CalibrationData) :
    (finalize_calibration sm d).contracted_threshold <
      (finalize_calibration sm d).extended_threshold ∧
    (15 ≤ (finalize_calibration sm d).contracted_threshold →
      (finalize_calibration sm d).safe_angle_min ≤
        (finalize_calibration sm d).contracted_threshold) ∧
    ((finalize_calibration sm d).extended_threshold ≤ 175 →
      (finalize_calibration sm d).extended_threshold ≤
        (finalize_calibration sm d).safe_angle_max) := by
  unfold finalize_calibration
  dsimp only
  split_ifs with h
  · exact ⟨by norm_num, fun _ => by norm_num, fun _ => by norm_num⟩
  · dsimp only
    refine ⟨by omega, fun h15 => ?_, fun h175 => ?_⟩
    · exact max_le h15 (by omega)
    · exact le_min h175 (by omega)

/-- Witness for C6 (amended): the fallback thresholds of the c3 samples
satisfy all three inequalities, in particular 30 = safe_angle_min ≤
contracted_threshold = 50. -/
theorem finalize_invariants_witness :
    15 ≤ (finalize_calibration c3_samples default_calibration).contracted_threshold ∧
    (finalize_calibration c3_samples default_calibration).safe_angle_min ≤
      (finalize_calibration c3_samples default_calibration).contracted_threshold := by
  have h15 : 15 ≤ (finalize_calibration c3_samples default_calibration).contracted_threshold := by
    have h1 : raw_extended_threshold c3_samples = 92 := by
      norm_num [raw_extended_threshold, robust_average, npMean, pyInt, c3_samples]
    have h2 : raw_contracted_threshold c3_samples = 57 := by
      norm_num [raw_contracted_threshold, robust_average, npMean, pyInt, c3_samples]
    simp only [finalize_calibration, h1, h2]
    norm_num
  exact ⟨h15, (finalize_invariants c3_samples default_calibration).2.1 h15⟩

/-- Claim C7: per frame and per side, the angle result is None exactly when
the frame has no pose landmarks, or reading one of the side's three
configured landmark indices fails (out of range), or one of the three has
visibility below 0.6; no error escapes (the function is total, returning
an Option); otherwise the result is the smoothed angle as an integer and
the side's smoother state advances. -/
theorem arm_angle_none_iff :
    (∀ (calc_angle : (ℚ × ℚ) → (ℚ × ℚ) → (ℚ × ℚ) → ℚ) (cfg : ExerciseConfig)
      (stR stL : AngleCalcState),
      get_both_arm_angles calc_angle cfg none stR stL = ((stR, none), (stL, none))) ∧
    (∀ (calc_angle : (ℚ × ℚ) → (ℚ × ℚ) → (ℚ × ℚ) → ℚ) (cfg : ExerciseConfig)
      (lms : List Landmark) (stR stL : AngleCalcState),
      get_both_arm_angles calc_angle cfg (some lms) stR stL =
        (extract_arm_angle calc_angle lms cfg.right_landmarks stR,
         extract_arm_angle calc_angle lms cfg.left_landmarks stL)) ∧
    (∀ (calc_angle : (ℚ × ℚ) → (ℚ × ℚ) → (ℚ × ℚ) → ℚ) (lms : List Landmark)
      (tr : LandmarkTriple) (st : AngleCalcState),
      ((extract_arm_angle calc_angle lms tr st).2 = none ↔
        landmark_read_fails lms tr ∨ low_visibility lms tr)) ∧
    (∀ (calc_angle : (ℚ × ℚ) → (ℚ × ℚ) → (ℚ × ℚ) → ℚ) (lms : List Landmark)
      (tr : LandmarkTriple) (st : AngleCalcState),
      ¬ landmark_read_fails lms tr → ¬ low_visibility lms tr →
      extract_arm_angle calc_angle lms tr st =
        ((get_smoothed_angle st (calc_angle
            ((lms.getD tr.a defaultLandmark).x, (lms.getD tr.a defaultLandmark).y)
            ((lms.getD tr.b defaultLandmark).x, (lms.getD tr.b defaultLandmark).y)
            ((lms.getD tr.c defaultLandmark).x, (lms.getD tr.c defaultLandmark).y))).1,
         some (get_smoothed_angle st (calc_angle
            ((lms.getD tr.a defaultLandmark).x, (lms.getD tr.a defaultLandmark).y)
            ((lms.getD tr.b defaultLandmark).x, (lms.getD tr.b defaultLandmark).y)
            ((lms.getD tr.c defaultLandmark).x, (lms.getD tr.c defaultLandmark).y))).2)) := by
  refine ⟨fun _ _ _ _ => rfl, fun _ _ _ _ _ => rfl, fun calc_angle lms tr st => ?_,
    fun calc_angle lms tr st h1 h2 => ?_⟩
  · unfold extract_arm_angle
    dsimp only
    split_ifs with hf hv
    · exact iff_of_true rfl (Or.inl hf)
    · exact iff_of_true rfl (Or.inr hv)
    · exact iff_of_false (by simp) (fun hc => hc.elim hf hv)
  · have h2' : ¬ ((lms.getD tr.a defaultLandmark).visibility < 3/5 ∨
        (lms.getD tr.b defaultLandmark).visibility < 3/5 ∨
        (lms.getD tr.c defaultLandmark).visibility < 3/5) := h2
    unfold extract_arm_angle
    dsimp only
    rw [if_neg h1, if_neg h2']

/-- Witness for C7: a frame with one fully visible landmark and the triple
(0,0,0) yields the smoothed integer angle (90 on a first sample of 90). -/
theorem arm_angle_none_iff_witness :
    ¬ landmark_read_fails [{ x := 0, y := 0, visibility := 1 }] ⟨0, 0, 0⟩ ∧
    ¬ low_visibility [{ x := 0, y := 0, visibility := 1 }] ⟨0, 0, 0⟩ ∧
    (extract_arm_angle (fun _ _ _ => 90) [{ x := 0, y := 0, visibility := 1 }] ⟨0, 0, 0⟩
      { buffer := [], ema := none }).2 = some 90 := by
  have hf : ¬ landmark_read_fails [{ x := 0, y := 0, visibility := 1 }] ⟨0, 0, 0⟩ := by
    norm_num [landmark_read_fails]
  have hv : ¬ low_visibility [{ x := 0, y := 0, visibility := 1 }] ⟨0, 0, 0⟩ := by
    norm_num [low_visibility, defaultLandmark, List.getD]
  refine ⟨hf, hv, ?_⟩
  rw [(arm_angle_none_iff).2.2.2 (fun _ _ _ => 90)
    [{ x := 0, y := 0, visibility := 1 }] ⟨0, 0, 0⟩ { buffer := [], ema := none } hf hv]
  norm_num [get_smoothed_angle, medianQ, sortQ, insortQ, dequeAppend, pyInt]

/-- Claim C2: over any sequence of process_rep calls with non-decreasing
timestamps, rep_count never decreases (left conjunct, stated for arbitrary
prefixes and extensions of the trace), and any two rep credits — in
particular successive ones — are separated by at least min_rep_duration
(0.6 s) of timestamp time (right conjunct). -/
theorem rep_count_monotone_and_spacing :
    (∀ (cal : CalibrationData) (st : RepArmState × ArmMetrics × ℕ)
      (l l' : List (ℚ × ℚ)),
      (process_trace cal st l).2.1.rep_count ≤
        (process_trace cal st (l ++ l')).2.1.rep_count) ∧
    (∀ (cal : CalibrationData) (st : RepArmState × ArmMetrics × ℕ)
      (l₁ l₂ : List (ℚ × ℚ)) (p q : ℚ × ℚ),
      List.Chain' (fun x y : ℚ × ℚ => x.2 ≤ y.2) (l₁ ++ p :: (l₂ ++ [q])) →
      (process_trace cal st l₁).2.1.rep_count <
        (rep_step cal (process_trace cal st l₁) p).2.1.rep_count →
      (process_trace cal (rep_step cal (process_trace cal st l₁) p) l₂).2.1.rep_count <
        (rep_step cal (process_trace cal (rep_step cal (process_trace cal st l₁) p) l₂)
          q).2.1.rep_count →
      min_rep_duration ≤ q.2 - p.2) := by
  constructor
  · intro cal st l l'
    rw [process_trace_append]
    exact trace_rc_mono cal l' _
  · intro cal st l₁ l₂ p q hchain hcp hcq
    obtain ⟨e1, e2⟩ := rep_step_credit cal (process_trace cal st l₁) p hcp
    obtain ⟨f1, f2⟩ := rep_step_credit cal
      (process_trace cal (rep_step cal (process_trace cal st l₁) p) l₂) q hcq
    have hmono := trace_ldt_mono cal l₂ (rep_step cal (process_trace cal st l₁) p)
    rw [e1] at hmono
    linarith

/-- Witness for C2: a trace with credits at t = 1 and t = 2.4 (both
confirmed UP exits) with non-decreasing timestamps; the credits are 1.4 s
≥ 0.6 s apart. -/
theorem rep_count_monotone_and_spacing_witness :
    List.Chain' (fun x y : ℚ × ℚ => x.2 ≤ y.2)
      ([] ++ (100, 1) :: (c2_mid ++ [(100, 12/5)])) ∧
    min_rep_duration ≤ (12:ℚ)/5 - 1 := by
  have hchain : List.Chain' (fun x y : ℚ × ℚ => x.2 ≤ y.2)
      ([] ++ (100, 1) :: (c2_mid ++ [(100, 12/5)])) := by
    norm_num [c2_mid, List.chain'_cons]
  have hp : (process_trace default_calibration c2_start []).2.1.rep_count <
      (rep_step default_calibration (process_trace default_calibration c2_start [])
        (100, 1)).2.1.rep_count := by
    show c2_start.2.1.rep_count <
      (rep_step default_calibration c2_start (100, 1)).2.1.rep_count
    rw [c2_step1]
    norm_num [c2_start, c2s1]
  have hq : (process_trace default_calibration
        (rep_step default_calibration (process_trace default_calibration c2_start [])
          (100, 1)) c2_mid).2.1.rep_count <
      (rep_step default_calibration (process_trace default_calibration
        (rep_step default_calibration (process_trace default_calibration c2_start [])
          (100, 1)) c2_mid) (100, 12/5)).2.1.rep_count := by
    show (process_trace default_calibration
        (rep_step default_calibration c2_start (100, 1)) c2_mid).2.1.rep_count <
      (rep_step default_calibration (process_trace default_calibration
        (rep_step default_calibration c2_start (100, 1)) c2_mid) (100, 12/5)).2.1.rep_count
    rw [c2_step1]
    have hm : process_trace default_calibration c2s1 c2_mid = c2s8 := by
      unfold c2_mid
      rw [process_trace_cons, c2_step2, process_trace_cons, c2_step3,
        process_trace_cons, c2_step4, process_trace_cons, c2_step5,
        process_trace_cons, c2_step6, process_trace_cons, c2_step7,
        process_trace_cons, c2_step8]
      rfl
    rw [hm, c2_step9]
    norm_num [c2s8, c2s9]
  exact ⟨hchain, (rep_count_monotone_and_spacing).2 default_calibration c2_start
    [] c2_mid (100, 1) (100, 12/5) hchain hp hq⟩

/-- Claim C8: starting from the initial DOWN state, an angle sequence kept
strictly between contracted_threshold + 5 and extended_threshold − 5 never
reaches UP and never re-enters DOWN: along every prefix the stage is DOWN
or MOVING_UP (left conjunct), once the stage has become MOVING_UP it stays
MOVING_UP for the rest of the sequence (right conjunct), and rep_count
stays 0 throughout. -/
theorem mid_band_no_reps (cal : CalibrationData) (t0 : ℚ) (trace : List (ℚ × ℚ))
    (hband : ∀ p ∈ trace, (cal.contracted_threshold : ℚ) + hysteresis_margin < p.1 ∧
      p.1 < (cal.extended_threshold : ℚ) - hysteresis_margin) :
    (∀ l₁ l₂, trace = l₁ ++ l₂ →
      ((process_trace cal (initial_rep_arm_state, initial_arm_metrics t0, 0)
          l₁).2.1.stage = ArmStage.DOWN ∨
       (process_trace cal (initial_rep_arm_state, initial_arm_metrics t0, 0)
          l₁).2.1.stage = ArmStage.MOVING_UP) ∧
      (process_trace cal (initial_rep_arm_state, initial_arm_metrics t0, 0)
          l₁).2.1.rep_count = 0) ∧
    (∀ l₁ l₂, trace = l₁ ++ l₂ →
      (process_trace cal (initial_rep_arm_state, initial_arm_metrics t0, 0)
          l₁).2.1.stage = ArmStage.MOVING_UP →
      (process_trace cal (initial_rep_arm_state, initial_arm_metrics t0, 0)
          trace).2.1.stage = ArmStage.MOVING_UP) := by
  constructor
  · intro l₁ l₂ hsplit
    have hl₁ : ∀ p ∈ l₁, (cal.contracted_threshold : ℚ) + hysteresis_margin < p.1 ∧
        p.1 < (cal.extended_threshold : ℚ) - hysteresis_margin :=
      fun p hp => hband p (hsplit ▸ List.mem_append_left l₂ hp)
    obtain ⟨j1, j2, -⟩ := band_trace cal l₁ hl₁
      (initial_rep_arm_state, initial_arm_metrics t0, 0) (Or.inl rfl)
    exact ⟨j1, j2⟩
  · intro l₁ l₂ hsplit hmu
    have hl₂ : ∀ p ∈ l₂, (cal.contracted_threshold : ℚ) + hysteresis_margin < p.1 ∧
        p.1 < (cal.extended_threshold : ℚ) - hysteresis_margin :=
      fun p hp => hband p (hsplit ▸ List.mem_append_right l₁ hp)
    rw [hsplit, process_trace_append]
    obtain ⟨-, -, k3⟩ := band_trace cal l₂ hl₂
      (process_trace cal (initial_rep_arm_state, initial_arm_metrics t0, 0) l₁)
      (Or.inr hmu)
    exact k3 hmu

/-- Witness for C8: one frame at 100° (between 55 and 155 under the default
thresholds) starting from the initial state leaves rep_count at 0 and the
stage in the DOWN/MOVING_UP set. -/
theorem mid_band_no_reps_witness :
    (∀ p ∈ [((100:ℚ), (1:ℚ))],
      (default_calibration.contracted_threshold : ℚ) + hysteresis_margin < p.1 ∧
      p.1 < (default_calibration.extended_threshold : ℚ) - hysteresis_margin) ∧
    (process_trace default_calibration (initial_rep_arm_state, initial_arm_metrics 0, 0)
      [((100:ℚ), (1:ℚ))]).2.1.rep_count = 0 := by
  have hb : ∀ p ∈ [((100:ℚ), (1:ℚ))],
      (default_calibration.contracted_threshold : ℚ) + hysteresis_margin < p.1 ∧
      p.1 < (default_calibration.extended_threshold : ℚ) - hysteresis_margin := by
    intro p hp
    rw [List.mem_singleton] at hp
    subst hp
    norm_num [default_calibration, hysteresis_margin]
  exact ⟨hb, ((mid_band_no_reps default_calibration 0 [((100:ℚ), (1:ℚ))] hb).1
    [((100:ℚ), (1:ℚ))] [] (List.append_nil _).symm).2⟩

/-- Counterexample to C9 as stated: along the reachable trace c9_frames
from the initial state, processing the final frame (100°, t = 1.3 s) once
credits nothing (rep_count 0, the pending UP → MOVING_DOWN transition is
blocked by the velocity gate: |100 − 45|/3 ≥ 15), but feeding the very same
frame a second time with the identical timestamp shifts the velocity window
(|100 − 60|/3 < 15) and credits a rep: rep_count becomes 1. -/
theorem duplicate_frame_counterexample :
    c9_once.2.1.rep_count = 0 ∧ c9_twice.2.1.rep_count = 1 ∧
    c9_frames.getLast? = some (100, 13/10) := by
  have h1 : c9_once = c9s11 := by
    unfold c9_once c9_frames
    rw [process_trace_cons, c9_step1, process_trace_cons, c9_step2, process_trace_cons,
      c9_step3, process_trace_cons, c9_step4, process_trace_cons, c9_step5,
      process_trace_cons, c9_step6, process_trace_cons, c9_step7, process_trace_cons,
      c9_step8, process_trace_cons, c9_step9, process_trace_cons, c9_step10,
      process_trace_cons, c9_step11]
    rfl
  have h2 : c9_twice = c9s12 := by
    unfold c9_twice
    rw [h1]
    exact c9_step12
  exact ⟨by rw [h1]; rfl, by rw [h2]; rfl, rfl⟩

/-- Claim C9 amended: a duplicated frame with identical timestamp credits
no additional rep provided the side already holds at least 3 samples and
the first call's measured window velocity is below 15°/frame; without the
velocity side condition the duplicate sample can shift the 4-sample
velocity window and release a pending UP-exit transition that the first
call left blocked only by the velocity gate (see the counterexample). -/
theorem duplicate_frame_no_credit (cal : CalibrationData) (s : RepArmState)
    (m : ArmMetrics) (fc : ℕ) (a t : ℚ)
    (hlen : 3 ≤ s.angle_history.length)
    (hvel : velocity_after s.angle_history a < 15) :
    (rep_step cal (rep_step cal (s, m, fc) (a, t)) (a, t)).2.1.rep_count =
      (rep_step cal (s, m, fc) (a, t)).2.1.rep_count := by
  have h4 : ¬ (dequeAppend 8 s.angle_history a).length < 4 := by
    rw [dequeAppend_length]; omega
  dsimp only [rep_step]
  by_cases ht : determine_target_state cal a m.stage = m.stage
  · obtain ⟨e1, e2, -, -⟩ := process_rep_target_eq cal s m fc a t h4 ht
    have h4' : ¬ (dequeAppend 8 (process_rep cal s m fc a t).1.angle_history a).length < 4 := by
      rw [e1]
      dsimp only
      rw [dequeAppend_length, dequeAppend_length]
      omega
    have ht2 : determine_target_state cal a (process_rep cal s m fc a t).2.1.stage =
        (process_rep cal s m fc a t).2.1.stage := by
      rw [e2]
      exact ht
    exact (process_rep_target_eq cal (process_rep cal s m fc a t).1
      (process_rep cal s m fc a t).2.1 (process_rep cal s m fc a t).2.2 a t h4' ht2).2.2.1
  · by_cases hp : s.pending_state = some (determine_target_state cal a m.stage)
    · by_cases hcnd : state_hold_time ≤ t - s.pending_state_start
      · obtain ⟨e1, e2, -, -⟩ := process_rep_transition cal s m fc a t h4 ht hp ⟨hcnd, hvel⟩
        have h4' : ¬ (dequeAppend 8 (process_rep cal s m fc a t).1.angle_history a).length < 4 := by
          rw [e1, dequeAppend_length, dequeAppend_length]
          omega
        have ht2 : determine_target_state cal a (process_rep cal s m fc a t).2.1.stage =
            (process_rep cal s m fc a t).2.1.stage := by
          rw [e2]
          exact tau_idem cal a m.stage
        exact (process_rep_target_eq cal (process_rep cal s m fc a t).1
          (process_rep cal s m fc a t).2.1 (process_rep cal s m fc a t).2.2 a t h4' ht2).2.2.1
      · have hc : ¬ (state_hold_time ≤ t - s.pending_state_start ∧
            velocity_after s.angle_history a < 15) := fun hh => hcnd hh.1
        obtain ⟨e1, e2, -, -⟩ := process_rep_blocked cal s m fc a t h4 ht hp hc
        have h4' : ¬ (dequeAppend 8 (process_rep cal s m fc a t).1.angle_history a).length < 4 := by
          rw [e1]
          dsimp only
          rw [dequeAppend_length, dequeAppend_length]
          omega
        have ht2 : determine_target_state cal a (process_rep cal s m fc a t).2.1.stage ≠
            (process_rep cal s m fc a t).2.1.stage := by
          rw [e2]
          exact ht
        have hp2 : (process_rep cal s m fc a t).1.pending_state =
            some (determine_target_state cal a (process_rep cal s m fc a t).2.1.stage) := by
          rw [e1, e2]
          exact hp
        have hc2 : ¬ (state_hold_time ≤ t - (process_rep cal s m fc a t).1.pending_state_start ∧
            velocity_after (process_rep cal s m fc a t).1.angle_history a < 15) := by
          rw [e1]
          dsimp only
          exact fun hh => hcnd hh.1
        exact (process_rep_blocked cal (process_rep cal s m fc a t).1
          (process_rep cal s m fc a t).2.1 (process_rep cal s m fc a t).2.2 a t
          h4' ht2 hp2 hc2).2.2.1
    · obtain ⟨e1, e2, -, -⟩ := process_rep_new_pending cal s m fc a t h4 ht hp
      have h4' : ¬ (dequeAppend 8 (process_rep cal s m fc a t).1.angle_history a).length < 4 := by
        rw [e1]
        dsimp only
        rw [dequeAppend_length, dequeAppend_length]
        omega
      have ht2 : determine_target_state cal a (process_rep cal s m fc a t).2.1.stage ≠
          (process_rep cal s m fc a t).2.1.stage := by
        rw [e2]
        exact ht
      have hp2 : (process_rep cal s m fc a t).1.pending_state =
          some (determine_target_state cal a (process_rep cal s m fc a t).2.1.stage) := by
        rw [e1, e2]
      have hc2 : ¬ (state_hold_time ≤ t - (process_rep cal s m fc a t).1.pending_state_start ∧
          velocity_after (process_rep cal s m fc a t).1.angle_history a < 15) := by
        rw [e1]
        dsimp only
        intro hh
        have h1 := hh.1
        rw [sub_self] at h1
        norm_num [state_hold_time] at h1
      exact (process_rep_blocked cal (process_rep cal s m fc a t).1
        (process_rep cal s m fc a t).2.1 (process_rep cal s m fc a t).2.2 a t
        h4' ht2 hp2 hc2).2.2.1

/-- Witness for C9 (amended): with three samples already recorded and a
settled velocity, processing the same frame twice leaves rep_count equal. -/
theorem duplicate_frame_no_credit_witness :
    3 ≤ ([(0:ℚ), 0, 0] : List ℚ).length ∧
    velocity_after [(0:ℚ), 0, 0] 0 < 15 ∧
    (rep_step default_calibration (rep_step default_calibration
        ({ angle_history := [(0:ℚ), 0, 0], pending_state := none,
           pending_state_start := 0, rep_start_time := 0 },
         initial_arm_metrics 0, 0) (0, 1)) (0, 1)).2.1.rep_count =
      (rep_step default_calibration
        ({ angle_history := [(0:ℚ), 0, 0], pending_state := none,
           pending_state_start := 0, rep_start_time := 0 },
         initial_arm_metrics 0, 0) (0, 1)).2.1.rep_count := by
  refine ⟨by norm_num, ?_, ?_⟩
  · norm_num [velocity_after, dequeAppend, negIdx, List.getD]
  · exact duplicate_frame_no_credit default_calibration
      { angle_history := [(0:ℚ), 0, 0], pending_state := none,
        pending_state_start := 0, rep_start_time := 0 }
      (initial_arm_metrics 0) 0 0 1 (by norm_num)
      (by norm_num [velocity_after, dequeAppend, negIdx, List.getD])
